import Mathlib

/-!
Verification model of the `androidtestorchestrator` application-lifecycle core
(`application.py`, `timing.py`).

The Python code talks to a remote device through a command bridge.  The model
makes the device's observable behaviour explicit parameters (installed-package
lists, activity stack, log-stream lines, per-command failure indicators) and
embeds each Python method as a pure Lean function over those parameters.
Python sets of permission strings become `Finset String`; Python exceptions
become `Except String`.
-/

namespace MTO

/-- `listStartsWith hay pat` : does `hay` start with `pat`? (char-list level). -/
def listStartsWith : List Char → List Char → Bool
  | _, [] => true
  | [], _ :: _ => false
  | a :: as, b :: bs => a = b && listStartsWith as bs

/-- Embedding of Python's substring test `pat in s`. -/
def listHasSub : List Char → List Char → Bool
  | [], pat => pat.isEmpty
  | a :: rest, pat => listStartsWith (a :: rest) pat || listHasSub rest pat

/-- `strHas s pat` embeds the Python expression `pat in s` on strings. -/
def strHas (s pat : String) : Bool :=
  listHasSub s.toList pat.toList

/-- Terminal states of the `Application.launch` log scan. -/
inductive LaunchResult where
  | crashed
  | displayed
  | streamEnded
deriving DecidableEq, Repr

/-- Embedding of the scan loop of `Application.launch` (application.py lines
326-332), run over the logcat lines read after the start command was issued.
`flag` is `detected_fatal_exception`.  Within one line the code first arms the
flag, then tests the crash condition, then the Displayed condition, exactly as
the three `if` statements do. -/
def launchScan (pkg : String) : Bool → List String → LaunchResult
  | _, [] => .streamEnded
  | flag, line :: rest =>
    let flag1 := flag || strHas line "FATAL EXCEPTION"
    if flag1 && strHas line "Process" && strHas line pkg then .crashed
    else if strHas line "Displayed" && strHas line pkg then .displayed
    else launchScan pkg flag1 rest

/-- Outcome of `Application.launch` when a caller-supplied `timeout` bounds the
whole operation via `asyncio.wait_for`. -/
inductive LaunchOutcome where
  | crashed
  | displayed
  | streamEnded
  | timedOut
deriving DecidableEq, Repr

/-- Embedding of `Application.launch` with a supplied timeout (application.py
lines 302-336).  `emitted` is the list of logcat lines the stream produced
within the timeout window; `streamOpen` is true when the stream had not ended
by expiry (a logcat stream is continuous).  The code consumes two lines before
issuing the start command, then scans; if the scan has reached no terminal
state on the lines available within the window and the stream is still open,
`asyncio.wait_for` (or the per-line unresponsive timeout) expires and a
timeout failure is raised. -/
def launchWithTimeout (pkg : String) (emitted : List String) (streamOpen : Bool) :
    LaunchOutcome :=
  match launchScan pkg false (emitted.drop 2) with
  | .crashed => .crashed
  | .displayed => .displayed
  | .streamEnded => if streamOpen then .timedOut else .streamEnded

/-! ## Permission management (`grant_permissions`, `regrant_permissions`, `clear_data`) -/

/-- Embedding of `permissions = permissions or self.permissions`
(application.py line 262).  Python's `or` falls back to the declared set not
only when the argument is `None` but also when it is an *empty* collection,
because an empty set is falsy. -/
def effectivePerms (declared : Finset String) (requested : Option (Finset String)) :
    Finset String :=
  match requested with
  | none => declared
  | some P => if P = ∅ then declared else P

/-- Drop leading whitespace characters from a char list. -/
def dropLeadingWs : List Char → List Char
  | [] => []
  | c :: rest => if c.isWhitespace then dropLeadingWs rest else c :: rest

/-- Embedding of Python's `p.strip()`: remove leading and trailing whitespace. -/
def pyStrip (s : String) : String :=
  String.mk (List.reverse (dropLeadingWs (List.reverse (dropLeadingWs s.toList))))

/-- Embedding of Python's `s.lower()` (char-list level, so that it computes by
kernel reduction). -/
def pyLower (s : String) : String :=
  String.mk (s.toList.map Char.toLower)

/-- Embedding of
`permissions_filtered = set(p.strip() for p in permissions if p in Device.DANGEROUS_PERMISSIONS)`
(application.py line 264).  `dangerous` stands for `Device.DANGEROUS_PERMISSIONS`,
the device-reported allowlist (its definition lives in `device.py`, outside the
embedded file, so it is a parameter here). -/
def grantFilter (dangerous perms : Finset String) : Finset String :=
  (perms.filter (fun p => p ∈ dangerous)).image (fun p => pyStrip p)

/-- Observable outcome of one `grant_permissions` call:
the value returned, the new `_granted_permissions` set, the set of permissions
for which a `pm grant` command was issued, and the subset of those whose
command did not fail. -/
structure GrantResult where
  returned : Finset String
  granted : Finset String
  attempted : Finset String
  succeeded : Finset String
deriving DecidableEq

/-- Embedding of `Application.grant_permissions` (application.py lines 253-276).
`granted` is `self._granted_permissions` before the call; `grantFails p` tells
whether the `pm grant` command for `p` raises.  The loop body catches any
exception from the grant command, logs it and continues, and adds `p` to
`self._granted_permissions` unconditionally after the try/except — so the net
effect on the granted set is the union with the filtered set, independent of
which individual commands failed. -/
def grant_permissions (dangerous declared granted : Finset String)
    (requested : Option (Finset String)) (grantFails : String → Bool) : GrantResult :=
  let permissions := effectivePerms declared requested
  let permissions_filtered := grantFilter dangerous permissions
  if permissions_filtered = ∅ then
    { returned := ∅, granted := granted, attempted := ∅, succeeded := ∅ }
  else
    { returned := granted ∪ permissions_filtered
      granted := granted ∪ permissions_filtered
      attempted := permissions_filtered
      succeeded := permissions_filtered.filter (fun p => grantFails p = false) }

/-- Embedding of `Application.regrant_permissions` (application.py lines
278-284): `self.grant_permissions(self._granted_permissions)`. -/
def regrant_permissions (dangerous declared granted : Finset String)
    (grantFails : String → Bool) : GrantResult :=
  grant_permissions dangerous declared granted (some granted) grantFails

/-- Embedding of `Application.clear_data` (application.py lines 384-392);
returns `self._granted_permissions` after the call.  The `pm clear` command is
issued first; then either the previously recorded set is re-granted or the
recorded set is reset to empty. -/
def clear_data (dangerous declared granted : Finset String)
    (regrant : Bool) (grantFails : String → Bool) : Finset String :=
  if regrant then
    (regrant_permissions dangerous declared granted grantFails).granted
  else
    ∅

/-! ## Construction and installation (`__init__`, `verify_install`, `from_apk`) -/

/-- The per-instance state `Application.__init__` establishes
(application.py lines 58-68). -/
structure App where
  package_name : String
  permissions : Finset String
  granted_permissions : Finset String
deriving DecidableEq

/-- Embedding of `Application.__init__` for the dictionary-manifest form
(application.py lines 58-68): an empty package name raises `ValueError`;
`_granted_permissions` starts out empty. -/
def mkApplication (package_name : String) (permissions : Finset String) :
    Except String App :=
  if package_name = "" then
    .error "manifest argument as dictionary must contain package_name as key"
  else
    .ok { package_name := package_name, permissions := permissions,
          granted_permissions := ∅ }

/-- Embedding of `Application.verify_install` (application.py lines 70-92):
fetch the installed-package list; if the package is absent, sleep
`Device.SLEEP_PKG_INSTALL` and fetch again (`firstList` / `secondList` are the
two fetches); still absent ⇒ raise. -/
def verify_install (firstList secondList : List String) (package : String) :
    Except String Unit :=
  if package ∈ firstList then .ok ()
  else if package ∈ secondList then .ok ()
  else .error ("Failed to verify installation of app " ++ package)

/-- Embedding of `Application.from_apk` (application.py lines 220-238): parse
the manifest, run `adb install` via `_install` (which raises on a non-zero
exit, modelled by `installOk`), then construct the Application.
`installedAfter` is the device's installed-package list after the install
command returns: the code never consults it — no call to `verify_install`
appears anywhere on this path. -/
def from_apk (manifestPkg : String) (manifestPermissions : Finset String)
    (installOk : Bool) (installedAfter : List String) : Except String App :=
  if installOk then mkApplication manifestPkg manifestPermissions
  else .error "install failed"

/-- Embedding of `Application.from_apk_async` / `_monitor_install`
(application.py lines 107-145 and 190-218): push the apk (IOError on failure),
run `pm install` under the device lock (failure on non-zero exit), best-effort
remove the temp file, then construct the Application.  As with `from_apk`,
`installedAfter` is never consulted. -/
def from_apk_async (manifestPkg : String) (manifestPermissions : Finset String)
    (pushOk : Bool) (installReturncode : Nat) (installedAfter : List String) :
    Except String App :=
  if pushOk = false then .error "Unable to push apk to device"
  else if installReturncode ≠ 0 then .error "Install of apk failed"
  else mkApplication manifestPkg manifestPermissions

/-! ## `clean_kill` -/

/-- Embedding of the polling loop of `Application.clean_kill`
(application.py lines 372-376): `tries = 3; while tries and not
home_screen_active(): tries -= 1; sleep`.  `home_screen_active i` is the
result of the i-th call (0-based) to `self._device_navigation.home_screen_active()`.
The value returned is the index the *next* call to `home_screen_active` would
get (equivalently, the number of calls made inside the loop). -/
def pollHome (home_screen_active : Nat → Bool) : Nat → Nat → Nat
  | 0, calls => calls
  | tries + 1, calls =>
    if home_screen_active calls then calls + 1
    else pollHome home_screen_active tries (calls + 1)

/-- Embedding of `Application.clean_kill` (application.py lines 361-382): send
the HOME key event, poll up to three times for the home screen, issue
`am kill`, then — only if the process is still detectable (`self.pid` not
`None`) — raise, with the message chosen by one more `home_screen_active()`
check.  When the pid is gone the method returns normally whatever the
home-screen state. -/
def clean_kill (home_screen_active : Nat → Bool) (pidAfterKill : Option String) :
    Except String Unit :=
  let next := pollHome home_screen_active 3 0
  match pidAfterKill with
  | none => .ok ()
  | some _ =>
    if home_screen_active next = false then
      .error "Failed to background current foreground app. Cannot complete app closure."
    else
      .error "Detected app process is still running. App closure failed."

/-! ## `TestApplication.run_orchestrated` -/

/-- The two required orchestrator support packages
(application.py line 550). -/
def supportPackages : Finset String :=
  {"android.support.test.services", "android.support.test.orchestrator"}

/-- Embedding of the option-quoting rule used by `run` / `run_orchestrated`
(application.py lines 535 and 556-557): quote an argument unless it already
starts with a quote or with a flag dash. -/
def quoteArg (arg : String) : String :=
  if listStartsWith arg.toList "\"".toList || listStartsWith arg.toList "-".toList then
    arg
  else "\"" ++ arg ++ "\""

/-- Embedding of `TestApplication.run_orchestrated` (application.py lines
539-563).  `installed` is `self.device.list_installed_packages()`.  The
support-package check uses Python's *strict* subset operator
(`not s < set(packages)`); it raises before any remote command is issued
(`.error` means no command was produced).  On success the assembled remote
shell invocation is returned. -/
def run_orchestrated (installed : List String)
    (package_name runner target_package : String) (options : List String) :
    Except String (List String) :=
  if ¬ (supportPackages < installed.toFinset) then
    .error "Must install both test-services apk and orchestrator apk to run under Android Test Orchestrator"
  else if target_package ∉ installed then
    .error "App under test, as designated by this test apps manifest, is not installed"
  else
    let options_text := " ".intercalate (options.map quoteArg)
    .ok ["shell",
         "CLASSPATH=$(pm path android.support.test.services) "
           ++ "app_process / android.support.test.services.shellexecutor.ShellMain am instrument "
           ++ "-r -w -e -v -targetInstrumentation " ++ package_name ++ "/" ++ runner
           ++ " " ++ options_text ++ " "
           ++ "android.support.test.orchestrator/android.support.test.orchestrator.AndroidTestOrchestrator"]

/-! ## `in_foreground` -/

/-- `Application.SILENT_RUNNING_PACKAGES` (application.py line 55). -/
def SILENT_RUNNING_PACKAGES : List String :=
  ["com.samsung.android.mtpapplication", "com.wssyncmldm", "com.bitbar.testdroid.monitor"]

/-- Embedding of the silent-app skip loop of `Application.in_foreground`
(application.py lines 400-402):
`while activity_stack and activity_stack[index].lower() in SILENT_RUNNING_PACKAGES: index += 1`.
The first argument is the suffix `activity_stack[index:]` of the (nonempty)
stack; since the stack never shrinks, the loop guard reduces to the indexed
lookup, which raises `IndexError` as soon as `index` reaches the stack length
— i.e. when the suffix is exhausted. -/
def fgSkip (silent : List String) : List String → Nat → Except String Nat
  | [], _ => .error "IndexError: list index out of range"
  | entry :: rest, index =>
    if pyLower entry ∈ silent then fgSkip silent rest (index + 1)
    else .ok index

/-- Embedding of `Application.in_foreground` (application.py lines 394-406).
`stackRaw` is `self.device.get_activity_stack()` (`none` for Python `None`;
`or []` maps it to the empty list).  When `ignore_silent_apps` is set and the
stack is nonempty, the skip loop runs (and raises `IndexError` if every entry
is silent); the guard `if index > len(activity_stack): return False` uses `>`
rather than `>=`, so the subsequent `activity_stack[index]` lookup raises
`IndexError` whenever `index` equals the length — in particular on the empty
stack. -/
def in_foreground (stackRaw : Option (List String)) (package_name : String)
    (ignore_silent_apps : Bool) : Except String Bool := do
  let activity_stack := stackRaw.getD []
  let index ←
    if ignore_silent_apps ∧ activity_stack ≠ [] then
      fgSkip SILENT_RUNNING_PACKAGES activity_stack 0
    else
      pure 0
  if index > activity_stack.length then
    return false
  else
    match activity_stack.get? index with
    | none => .error "IndexError: list index out of range"
    | some foreground_activity =>
        return pyLower foreground_activity == pyLower package_name

/-! ## Watchdog `Timer` (timing.py) -/

/-- State of a `Timer` (timing.py lines 30-72).  `future = some r` models a
live `asyncio` future with `r` telling whether its result has been set;
`future = none` models the used-up timer (`self._future = None`).
`task = some c` models a created wait task with `c` telling whether it was
cancelled; `task = none` models `self._task = None`. -/
structure Timer where
  future : Option Bool
  task : Option Bool
  timeout : Nat
deriving DecidableEq

/-- Embedding of `Timer.__init__` (timing.py lines 40-46): a fresh pending
future, no task yet. -/
def Timer.create (duration : Nat) : Timer :=
  { future := some false, task := none, timeout := duration }

/-- Embedding of `Timer.mark_start` (timing.py lines 58-72): create the
background wait task. -/
def Timer.mark_start (t : Timer) : Timer :=
  { t with task := some false }

/-- Embedding of `Timer.mark_end` (timing.py lines 48-56): if either the
future or the task is `None` the method raises *before* touching any state
(the guard is the first statement, so an error leaves the timer exactly as it
was); otherwise it sets the future's result and cancels the task. -/
def Timer.mark_end (t : Timer) : Except String Timer :=
  if t.future = none ∨ t.task = none then
    .error "Internal error: marking end without a start?!"
  else
    .ok { t with future := t.future.map (fun _ => true), task := t.task.map (fun _ => true) }

/-! ## Helper lemmas -/

/-- In the launch scan, an armed fatal-exception flag plus a later line
mentioning `Process` and the package yields the crash result, provided no
Displayed line for the package occurs strictly earlier. -/
lemma launchScan_crashed_of_armed (pkg : String) :
    ∀ (lines : List String) (flag : Bool) (j : Nat), j < lines.length →
      (flag = true ∨ ∃ i, i ≤ j ∧ strHas (lines.getD i "") "FATAL EXCEPTION" = true) →
      strHas (lines.getD j "") "Process" = true →
      strHas (lines.getD j "") pkg = true →
      (∀ k, k < j →
        ¬(strHas (lines.getD k "") "Displayed" = true ∧ strHas (lines.getD k "") pkg = true)) →
      launchScan pkg flag lines = .crashed := by
  intro lines
  induction lines with
  | nil =>
    intro flag j hj _ _ _ _
    simp at hj
  | cons l rest ih =>
    intro flag j hj harm hproc hpkg hnod
    by_cases hcrash : ((flag || strHas l "FATAL EXCEPTION") && strHas l "Process" && strHas l pkg) = true
    · simp [launchScan, hcrash]
    · cases j with
      | zero =>
        exfalso
        apply hcrash
        simp only [List.getD_cons_zero] at hproc hpkg
        rcases harm with hf | ⟨i, hi, hfat⟩
        · simp [hf, hproc, hpkg]
        · have hi0 : i = 0 := Nat.le_zero.mp hi
          subst hi0
          simp only [List.getD_cons_zero] at hfat
          simp [hfat, hproc, hpkg]
      | succ j1 =>
        have hnd := hnod 0 (Nat.succ_pos j1)
        simp only [List.getD_cons_zero] at hnd
        have hdisp : (strHas l "Displayed" && strHas l pkg) = false := by
          cases h1 : strHas l "Displayed"
          · simp
          · cases h2 : strHas l pkg
            · simp
            · exact absurd ⟨h1, h2⟩ hnd
        have harm1 : ((flag || strHas l "FATAL EXCEPTION") = true ∨
            ∃ i, i ≤ j1 ∧ strHas (rest.getD i "") "FATAL EXCEPTION" = true) := by
          rcases harm with hf | ⟨i, hi, hfat⟩
          · left; simp [hf]
          · cases i with
            | zero =>
              left
              simp only [List.getD_cons_zero] at hfat
              simp [hfat]
            | succ i1 =>
              right
              refine ⟨i1, Nat.le_of_succ_le_succ hi, ?_⟩
              simpa using hfat
        have hrec := ih (flag || strHas l "FATAL EXCEPTION") j1
          (Nat.lt_of_succ_lt_succ (by simpa using hj)) harm1
          (by simpa using hproc) (by simpa using hpkg)
          (fun k hk => by
            have := hnod (k + 1) (Nat.succ_lt_succ hk)
            simpa using this)
        simp only [launchScan, hcrash, hdisp]
        simpa [hcrash, hdisp] using hrec

/-- A scan that sees no fatal-exception line and no Displayed line for the
package runs off the end of the stream. -/
lemma launchScan_streamEnded_of_no_terminal (pkg : String) :
    ∀ (lines : List String),
      (∀ l ∈ lines, strHas l "FATAL EXCEPTION" = false) →
      (∀ l ∈ lines, ¬(strHas l "Displayed" = true ∧ strHas l pkg = true)) →
      launchScan pkg false lines = .streamEnded := by
  intro lines
  induction lines with
  | nil => intro _ _; rfl
  | cons l rest ih =>
    intro hF hD
    have hf : strHas l "FATAL EXCEPTION" = false := hF l (by simp)
    have hd := hD l (by simp)
    have hdisp : (strHas l "Displayed" && strHas l pkg) = false := by
      cases h1 : strHas l "Displayed"
      · simp
      · cases h2 : strHas l pkg
        · simp
        · exact absurd ⟨h1, h2⟩ hd
    have hrec := ih (fun x hx => hF x (by simp [hx])) (fun x hx => hD x (by simp [hx]))
    simp only [launchScan, hf]
    simpa [hdisp] using hrec

/-- Under a whitespace-trimmed dangerous set, the filtered permission set is a
subset of the dangerous set. -/
lemma grantFilter_subset_dangerous (dangerous P : Finset String)
    (hD : ∀ p ∈ dangerous, pyStrip p = p) :
    grantFilter dangerous P ⊆ dangerous := by
  intro x hx
  simp only [grantFilter, Finset.mem_image, Finset.mem_filter] at hx
  rcases hx with ⟨p, ⟨_, hpD⟩, rfl⟩
  rw [hD p hpD]
  exact hpD

/-! ## Claim theorems -/

/-- C1: `from_apk` (and `from_apk_async`) with a successful push and install
returns an Application *without ever checking* the device's installed-package
list: here the installed list is empty (the package is absent both
immediately and after any grace delay), yet both factories return `.ok`,
while `verify_install` — the method implementing the claimed check, which has
no caller in the repository — would have raised on the same device state.
The claim is right and the code is wrong: the factories never invoke
`verify_install` although their docstrings promise an install-verification
failure. -/
theorem from_apk_returns_without_install_verification :
    from_apk "com.example.app" ∅ true [] =
      .ok { package_name := "com.example.app", permissions := ∅, granted_permissions := ∅ } ∧
    from_apk_async "com.example.app" ∅ true 0 [] =
      .ok { package_name := "com.example.app", permissions := ∅, granted_permissions := ∅ } ∧
    verify_install [] [] "com.example.app" =
      .error "Failed to verify installation of app com.example.app" :=
  ⟨rfl, rfl, rfl⟩

/-- C2 counterexample: with an empty previously-granted set, `clear_data`
with `regrant_permissions=True` does *not* leave the granted set empty:
`regrant_permissions` calls `grant_permissions(set())`, whose
`permissions or self.permissions` treats the empty set as falsy and falls
back to the package's declared permissions, granting them.  The claim's
"in particular this holds when G is empty" is refuted. -/
theorem clear_data_regrant_on_empty_counterexample :
    clear_data {"android.permission.CAMERA"} {"android.permission.CAMERA"} ∅
        true (fun _ => false) = {"android.permission.CAMERA"} ∧
    ({"android.permission.CAMERA"} : Finset String) ≠ (∅ : Finset String) := by
  decide

/-- C2 amended: for every *nonempty* granted set G held before the
clear (a reachable granted set lies inside the trimmed dangerous allowlist),
`clear_data(regrant_permissions=True)` leaves `granted_permissions` equal to
exactly G, and `clear_data(regrant_permissions=False)` leaves it empty; when
G is empty the regrant branch instead grants the declared dangerous
permissions. -/
theorem clear_data_regrant_restores_nonempty_granted
    (dangerous declared granted : Finset String) (grantFails : String → Bool)
    (hD : ∀ p ∈ dangerous, pyStrip p = p)
    (hG : granted ⊆ dangerous) (hne : granted ≠ ∅) :
    clear_data dangerous declared granted true grantFails = granted ∧
    clear_data dangerous declared granted false grantFails = ∅ := by
  refine ⟨?_, rfl⟩
  have hfilt : grantFilter dangerous granted = granted := by
    ext x
    simp only [grantFilter, Finset.mem_image, Finset.mem_filter]
    constructor
    · rintro ⟨p, ⟨hpG, hpD⟩, rfl⟩
      rw [hD p hpD]
      exact hpG
    · intro hx
      exact ⟨x, ⟨hx, hG hx⟩, hD x (hG hx)⟩
  have h1 : effectivePerms declared (some granted) = granted := by
    simp [effectivePerms, hne]
  simp only [clear_data, regrant_permissions, grant_permissions, h1, hfilt, if_true]
  rw [if_neg hne]
  simp

/-- C2 witness: the amended statement at a concrete nonempty granted set. -/
theorem clear_data_regrant_restores_nonempty_granted_witness :
    clear_data {"android.permission.CAMERA", "android.permission.RECORD_AUDIO"}
        (∅ : Finset String) {"android.permission.CAMERA"} true (fun _ => false) =
      {"android.permission.CAMERA"} ∧
    clear_data {"android.permission.CAMERA", "android.permission.RECORD_AUDIO"}
        (∅ : Finset String) {"android.permission.CAMERA"} false (fun _ => false) =
      (∅ : Finset String) :=
  clear_data_regrant_restores_nonempty_granted
    {"android.permission.CAMERA", "android.permission.RECORD_AUDIO"} ∅
    {"android.permission.CAMERA"} (fun _ => false)
    (by decide) (by decide) (by decide)

/-- C3 counterexample: a stream with a fatal-exception line followed by a
"Process ... package" line — but with a "Displayed" line for the package in
between — makes the scan end in *success* at the Displayed line, not raise a
crash failure, refuting the claim as universally stated. -/
theorem launch_crash_claim_counterexample :
    strHas "FATAL EXCEPTION: main" "FATAL EXCEPTION" = true ∧
    strHas "Process com.example.app has died" "Process" = true ∧
    strHas "Process com.example.app has died" "com.example.app" = true ∧
    launchScan "com.example.app" false
      ["FATAL EXCEPTION: main", "Displayed com.example.app/.MainActivity",
       "Process com.example.app has died"] = .displayed := by
  decide

/-- C3 amended: if the scanned stream has a fatal-exception line at position
`i` and a line at position `j ≥ i` containing "Process" and the package name,
and no line *before* `j` contains "Displayed" together with the package name,
then the launch scan raises the crash failure — in particular a "Displayed"
line for the package *after* the Process line does not avert the crash. -/
theorem launch_crash_detected (pkg : String) (lines : List String) (i j : Nat)
    (hj : j < lines.length) (hij : i ≤ j)
    (hfatal : strHas (lines.getD i "") "FATAL EXCEPTION" = true)
    (hproc : strHas (lines.getD j "") "Process" = true)
    (hpkg : strHas (lines.getD j "") pkg = true)
    (hnodisp : ∀ k, k < j →
      ¬(strHas (lines.getD k "") "Displayed" = true ∧ strHas (lines.getD k "") pkg = true)) :
    launchScan pkg false lines = .crashed :=
  launchScan_crashed_of_armed pkg lines false j hj (Or.inr ⟨i, hij, hfatal⟩) hproc hpkg hnodisp

/-- C3 witness: fatal line, then the Process line, then a later Displayed
line — the scan still reports the crash. -/
theorem launch_crash_detected_witness :
    launchScan "com.example.app" false
      ["FATAL EXCEPTION: main", "Process com.example.app has died",
       "Displayed com.example.app/.MainActivity"] = .crashed :=
  launch_crash_detected "com.example.app"
    ["FATAL EXCEPTION: main", "Process com.example.app has died",
     "Displayed com.example.app/.MainActivity"] 0 1
    (by decide) (by decide) (by decide) (by decide) (by decide)
    (by
      intro k hk
      have hk0 : k = 0 := by omega
      subst hk0
      decide)

/-- C4 counterexample: calling `grant_permissions` with an explicitly *empty*
permission set is not a no-op: the Python `or` default kicks in for any falsy
argument, so the declared (dangerous) permissions are granted and returned
instead of the claimed "no grant command and empty return". -/
theorem grant_permissions_empty_arg_counterexample :
    (grant_permissions {"android.permission.CAMERA"} {"android.permission.CAMERA"} ∅
        (some ∅) (fun _ => false)).attempted = {"android.permission.CAMERA"} ∧
    (grant_permissions {"android.permission.CAMERA"} {"android.permission.CAMERA"} ∅
        (some ∅) (fun _ => false)).returned ≠ (∅ : Finset String) := by
  decide

/-- C4 amended: with the default applying when the argument is omitted *or
empty*, `grant_permissions` filters the effective request to the dangerous
set; an empty filtered set means no grant command and an empty return with
the recorded set untouched; otherwise every filtered permission has a grant
command issued and ends up recorded in `granted_permissions`
(`granted ∪ filtered`), and which individual grant commands fail changes
neither the recorded set nor the set of permissions attempted. -/
theorem grant_permissions_behavior (dangerous declared granted : Finset String)
    (requested : Option (Finset String)) (fails1 fails2 : String → Bool) :
    (grantFilter dangerous (effectivePerms declared requested) = ∅ →
      grant_permissions dangerous declared granted requested fails1 =
        { returned := ∅, granted := granted, attempted := ∅, succeeded := ∅ }) ∧
    (grantFilter dangerous (effectivePerms declared requested) ≠ ∅ →
      (grant_permissions dangerous declared granted requested fails1).attempted =
          grantFilter dangerous (effectivePerms declared requested) ∧
      (grant_permissions dangerous declared granted requested fails1).granted =
          granted ∪ grantFilter dangerous (effectivePerms declared requested) ∧
      (grant_permissions dangerous declared granted requested fails1).attempted ⊆
          (grant_permissions dangerous declared granted requested fails1).granted) ∧
    (grant_permissions dangerous declared granted requested fails1).granted =
        (grant_permissions dangerous declared granted requested fails2).granted ∧
    (grant_permissions dangerous declared granted requested fails1).attempted =
        (grant_permissions dangerous declared granted requested fails2).attempted := by
  by_cases h : grantFilter dangerous (effectivePerms declared requested) = ∅ <;>
    simp [grant_permissions, h, Finset.subset_union_right]

/-- C4 witness: the nonempty-filter branch of the amended statement at a
concrete input where the single grant command fails. -/
theorem grant_permissions_behavior_witness :
    (grant_permissions {"android.permission.CAMERA"} {"android.permission.CAMERA"} ∅
        (some {"android.permission.CAMERA"}) (fun _ => true)).attempted =
      grantFilter {"android.permission.CAMERA"}
        (effectivePerms {"android.permission.CAMERA"} (some {"android.permission.CAMERA"})) ∧
    (grant_permissions {"android.permission.CAMERA"} {"android.permission.CAMERA"} ∅
        (some {"android.permission.CAMERA"}) (fun _ => true)).granted =
      ∅ ∪ grantFilter {"android.permission.CAMERA"}
        (effectivePerms {"android.permission.CAMERA"} (some {"android.permission.CAMERA"})) ∧
    (grant_permissions {"android.permission.CAMERA"} {"android.permission.CAMERA"} ∅
        (some {"android.permission.CAMERA"}) (fun _ => true)).attempted ⊆
      (grant_permissions {"android.permission.CAMERA"} {"android.permission.CAMERA"} ∅
        (some {"android.permission.CAMERA"}) (fun _ => true)).granted :=
  (grant_permissions_behavior {"android.permission.CAMERA"} {"android.permission.CAMERA"} ∅
    (some {"android.permission.CAMERA"}) (fun _ => true) (fun _ => false)).2.1 (by decide)

/-- C5 counterexample: when the home screen never becomes active in any of
the three polls but the app's process is already undetectable after the
force-kill, `clean_kill` returns normally — the claim says it must raise. -/
theorem clean_kill_home_never_active_counterexample :
    clean_kill (fun _ => false) none = .ok () :=
  rfl

/-- C5 amended: `clean_kill` returns normally exactly when the app's process
is undetectable after the force-kill, regardless of whether the home screen
ever became active; when the process is still detectable it raises (with the
message chosen by one further home-screen check). -/
theorem clean_kill_ok_iff_process_gone (home_screen_active : Nat → Bool)
    (pidAfterKill : Option String) :
    clean_kill home_screen_active pidAfterKill = .ok () ↔ pidAfterKill = none := by
  cases pidAfterKill with
  | none => simp [clean_kill]
  | some p =>
    simp only [clean_kill]
    cases h : home_screen_active (pollHome home_screen_active 3 0) <;> simp [h]

/-- C6: if the two orchestrator support packages are not both in the device's
installed-package list, `run_orchestrated` raises before any remote command is
assembled (the model returns the error instead of a command line). -/
theorem run_orchestrated_requires_support_packages
    (installed : List String) (package_name runner target_package : String)
    (options : List String)
    (h : "android.support.test.services" ∉ installed ∨
         "android.support.test.orchestrator" ∉ installed) :
    run_orchestrated installed package_name runner target_package options =
      .error "Must install both test-services apk and orchestrator apk to run under Android Test Orchestrator" := by
  have hsub : ¬ (supportPackages ⊆ installed.toFinset) := by
    intro hs
    rcases h with h1 | h1
    · exact h1 (List.mem_toFinset.mp (hs (by simp [supportPackages])))
    · exact h1 (List.mem_toFinset.mp (hs (by simp [supportPackages])))
  have hnot : ¬ (supportPackages < installed.toFinset) := fun hlt => hsub (le_of_lt hlt)
  simp [run_orchestrated, hnot]

/-- C6 witness: neither support package installed ⇒ raises. -/
theorem run_orchestrated_requires_support_packages_witness :
    run_orchestrated [] "com.test.app" "androidx.test.runner.AndroidJUnitRunner"
        "com.example.app" [] =
      .error "Must install both test-services apk and orchestrator apk to run under Android Test Orchestrator" :=
  run_orchestrated_requires_support_packages [] "com.test.app"
    "androidx.test.runner.AndroidJUnitRunner" "com.example.app" []
    (Or.inl (by decide))

/-- C7: a launch with a supplied timeout whose (still-open) log stream emits,
within the timeout, no line containing "Displayed" with the package name and
no fatal-exception line, raises a timeout failure and never returns
success. -/
theorem launch_times_out_without_terminal_lines (pkg : String) (emitted : List String)
    (hF : ∀ l ∈ emitted, strHas l "FATAL EXCEPTION" = false)
    (hD : ∀ l ∈ emitted, ¬(strHas l "Displayed" = true ∧ strHas l pkg = true)) :
    launchWithTimeout pkg emitted true = .timedOut := by
  have h := launchScan_streamEnded_of_no_terminal pkg (emitted.drop 2)
    (fun l hl => hF l (List.drop_subset 2 emitted hl))
    (fun l hl => hD l (List.drop_subset 2 emitted hl))
  simp [launchWithTimeout, h]

/-- C7 witness: three uninformative lines within the window ⇒ timeout. -/
theorem launch_times_out_without_terminal_lines_witness :
    launchWithTimeout "com.example.app"
      ["--------- beginning of main", "ActivityManager: Start proc 100",
       "ActivityManager: Killing 200"] true = .timedOut :=
  launch_times_out_without_terminal_lines "com.example.app"
    ["--------- beginning of main", "ActivityManager: Start proc 100",
     "ActivityManager: Killing 200"] (by decide) (by decide)

/-- C8: `in_foreground(ignore_silent_apps=True)` does *not* return a boolean
on the empty activity stack or on a stack consisting entirely of allowlisted
silent packages: both raise `IndexError` (the skip loop indexes one past the
end, and the guard uses `>` where `>=` was needed), although the dead
`index > len` guard shows `False` was the intent.  On a stack with a
non-silent entry the claimed skip-and-compare behaviour does hold. -/
theorem in_foreground_raises_on_empty_or_all_silent :
    in_foreground (some []) "com.example.app" true =
      .error "IndexError: list index out of range" ∧
    in_foreground (some ["com.wssyncmldm", "com.samsung.android.mtpapplication"])
        "com.example.app" true =
      .error "IndexError: list index out of range" ∧
    in_foreground (some ["com.wssyncmldm", "Com.Example.App"]) "com.example.app" true =
      .ok true :=
  ⟨rfl, rfl, rfl⟩

/-- C9: calling `mark_end` on a freshly created `Timer`, before any
`mark_start`, raises the programming-error fault; the guard is the first
statement of the method, so the raise happens before any state is touched
(in this pure model, no successor state is produced at all). -/
theorem timer_mark_end_before_start_raises (duration : Nat) :
    Timer.mark_end (Timer.create duration) =
      .error "Internal error: marking end without a start?!" :=
  rfl

/-- C10: immediately after construction `granted_permissions` is empty, and
under a whitespace-trimmed dangerous allowlist every mutation of the granted
set — `grant_permissions`, `regrant_permissions` and `clear_data` (either
flag) — keeps it inside the dangerous set. -/
theorem granted_permissions_invariant
    (dangerous declared granted : Finset String)
    (requested : Option (Finset String)) (grantFails : String → Bool)
    (pkg : String) (perms : Finset String) (app : App) (regrant : Bool)
    (hD : ∀ p ∈ dangerous, pyStrip p = p)
    (hG : granted ⊆ dangerous) :
    (mkApplication pkg perms = .ok app → app.granted_permissions = ∅) ∧
    (grant_permissions dangerous declared granted requested grantFails).granted ⊆ dangerous ∧
    (regrant_permissions dangerous declared granted grantFails).granted ⊆ dangerous ∧
    clear_data dangerous declared granted regrant grantFails ⊆ dangerous := by
  have hgrant : ∀ (req : Option (Finset String)),
      (grant_permissions dangerous declared granted req grantFails).granted ⊆ dangerous := by
    intro req
    by_cases h : grantFilter dangerous (effectivePerms declared req) = ∅
    · simpa [grant_permissions, h] using hG
    · simp only [grant_permissions, h, if_neg h]
      exact Finset.union_subset hG (grantFilter_subset_dangerous dangerous _ hD)
  refine ⟨?_, hgrant requested, hgrant (some granted), ?_⟩
  · intro hmk
    by_cases hp : pkg = ""
    · simp [mkApplication, hp] at hmk
    · simp only [mkApplication] at hmk
      rw [if_neg hp] at hmk
      injection hmk with h
      rw [← h]
  · cases regrant with
    | false => simp [clear_data]
    | true => simpa [clear_data, regrant_permissions] using hgrant (some granted)

/-- C10 witness: the invariant at a concrete dangerous set, granted set and
freshly constructed application. -/
theorem granted_permissions_invariant_witness :
    (mkApplication "com.example.app" {"android.permission.CAMERA"} =
        .ok { package_name := "com.example.app",
              permissions := {"android.permission.CAMERA"},
              granted_permissions := ∅ } →
      ({ package_name := "com.example.app",
         permissions := {"android.permission.CAMERA"},
         granted_permissions := ∅ } : App).granted_permissions = ∅) ∧
    (grant_permissions {"android.permission.CAMERA", "android.permission.RECORD_AUDIO"}
        {"android.permission.CAMERA"} {"android.permission.RECORD_AUDIO"}
        none (fun _ => false)).granted ⊆
      {"android.permission.CAMERA", "android.permission.RECORD_AUDIO"} ∧
    (regrant_permissions {"android.permission.CAMERA", "android.permission.RECORD_AUDIO"}
        {"android.permission.CAMERA"} {"android.permission.RECORD_AUDIO"}
        (fun _ => false)).granted ⊆
      {"android.permission.CAMERA", "android.permission.RECORD_AUDIO"} ∧
    clear_data {"android.permission.CAMERA", "android.permission.RECORD_AUDIO"}
        {"android.permission.CAMERA"} {"android.permission.RECORD_AUDIO"}
        true (fun _ => false) ⊆
      {"android.permission.CAMERA", "android.permission.RECORD_AUDIO"} :=
  granted_permissions_invariant
    {"android.permission.CAMERA", "android.permission.RECORD_AUDIO"}
    {"android.permission.CAMERA"} {"android.permission.RECORD_AUDIO"}
    none (fun _ => false) "com.example.app" {"android.permission.CAMERA"}
    { package_name := "com.example.app",
      permissions := {"android.permission.CAMERA"},
      granted_permissions := ∅ } true
    (by decide) (by decide)

end MTO
